import Mathlib

/-!
The package `sysboxFsGrpc` of sysbox-ipc: the client side of the sysbox-fs channel.

A shallow embedding of `sysboxFsGrpc/grpcClient.go`:

* the record `ContainerData` and the two converters `containerDataToPbData`
  and `pbDatatoContainerData`;
* `connect` and the three dispatchers `SendContainerRegistration`,
  `SendContainerUnregistration`, `SendContainerUpdate`, written in a small
  monad that threads the list of externally visible events (dial, timeout
  context, conversion, remote call, cancel, close, fatal log) and
  distinguishes a normal return from the termination of the process.

Go values are embedded as follows: `string` is `String`; `int32` and `int64`
are `Int` (the converters only copy these fields, the one cast that occurs is
written out as `int32`); an `error` is a `GoError` carrying the dynamic type
name and the text of `Error()`, `nil` being `none`; a pair `(*T, error)` of
which exactly one component is non-nil is an `Except GoError T`.
-/

namespace SysboxFsGrpc

/-! ## Errors and formatting -/

/-- A non-nil Go `error`: the name of its dynamic type (what
`reflect.TypeOf(err).String()` prints) and the text returned by `Error()`. -/
structure GoError where
  typ : String
  msg : String
deriving DecidableEq, Repr

/-- An operand of a formatting call: a string, a non-nil error, or a value
with a `String()` method (given by its dynamic type name and that text). -/
inductive Arg where
  | str (s : String)
  | err (e : GoError)
  | stringer (typ : String) (text : String)
deriving DecidableEq, Repr

/-- The dynamic type name of an operand, as printed in an `EXTRA` report. -/
def Arg.typeName : Arg → String
  | .str _ => "string"
  | .err e => e.typ
  | .stringer typ _ => typ

/-- The text the verb `%v` prints for an operand: a string as is, an error
through its `Error()` method, a stringer through `String()`. -/
def Arg.text : Arg → String
  | .str s => s
  | .err e => e.msg
  | .stringer _ text => text

/-- The operands left over once the format is exhausted, each printed as
`type=value` and separated by a comma and a blank. -/
def extraArgs : List Arg → List Char
  | [] => []
  | [a] => a.typeName.data ++ '=' :: a.text.data
  | a :: b :: rest => a.typeName.data ++ '=' :: a.text.data ++ ',' :: ' ' :: extraArgs (b :: rest)

/-- The formatting loop of Go's `fmt`, for the verb `%v`, which is the only
one the file uses: plain text is copied, `%v` consumes the next operand
(`%!v(MISSING)` when there is none), and operands that remain at the end are
reported as `%!(EXTRA type=value, ...)`. -/
def doPrintf : List Char → List Arg → List Char
  | [], [] => []
  | [], a :: rest => "%!(EXTRA ".data ++ extraArgs (a :: rest) ++ [')']
  | [c], args => c :: doPrintf [] args
  | c :: d :: fmt, args =>
    if c = '%' ∧ d = 'v' then
      match args with
      | [] => "%!v(MISSING)".data ++ doPrintf fmt []
      | a :: rest => a.text.data ++ doPrintf fmt rest
    else c :: doPrintf (d :: fmt) args

/-- Go's `fmt.Sprintf`. -/
def Sprintf (format : String) (args : List Arg) : String :=
  ⟨doPrintf format.data args⟩

/-- Go's `errors.New`. -/
def errorsNew (text : String) : GoError :=
  ⟨"*errors.errorString", text⟩

/-- Go's `fmt.Errorf` for formats without `%w`: the formatted text wrapped by
`errors.New`. -/
def Errorf (format : String) (args : List Arg) : GoError :=
  errorsNew (Sprintf format args)

/-! ## Time -/

/-- The location attached to a `time.Time`. -/
inductive Location where
  | UTC
  | Local
  | named (name : String)
deriving DecidableEq, Repr

/-- Go's `time.Time`, seen through its observers: `sec` is what `Unix()`
returns (an `int64`), `nsec` what `Nanosecond()` returns (always within
`[0, 999999999]`), `loc` the location. The monotonic clock reading is left out:
neither `Unix()` nor `Nanosecond()` depends on it. -/
structure Time where
  sec : Int
  nsec : Fin 1000000000
  loc : Location
deriving DecidableEq, Repr

/-- Go's `(Time).Unix`. -/
def Time.Unix (t : Time) : Int := t.sec

/-- Go's `(Time).Nanosecond`. -/
def Time.Nanosecond (t : Time) : Int := (t.nsec.val : Int)

/-- Go's `(Time).UTC`: the same instant with the location set to UTC. -/
def Time.UTC (t : Time) : Time := { t with loc := Location.UTC }

/-- Two times denote the same instant, to the nanosecond (what Go's
`(Time).Equal` tests). -/
def Time.sameInstant (a b : Time) : Prop :=
  a.Unix = b.Unix ∧ a.Nanosecond = b.Nanosecond

instance (a b : Time) : Decidable (Time.sameInstant a b) := by
  unfold Time.sameInstant; infer_instance

/-- Conversion to `int32`, two's complement wrap-around. -/
def int32 (x : Int) : Int := (x + 2147483648) % 4294967296 - 2147483648

/-- Conversion to `int64`, two's complement wrap-around. -/
def int64 (x : Int) : Int :=
  (x + 9223372036854775808) % 18446744073709551616 - 9223372036854775808

/-- The nanosecond field of a `Time` built from an `int32` that the caller has
brought into `[0, 1e9)`. -/
def nanoField (x : Int) : Fin 1000000000 :=
  ⟨(x % 1000000000).toNat, by omega⟩

/-- Go's `time.Unix(sec, nsec)`: the local time of the given Unix time; `nsec`
outside `[0, 999999999]` is carried into the seconds. -/
def time.Unix (sec nsec : Int) : Time :=
  if nsec < 0 ∨ nsec ≥ 1000000000 then
    let n := Int.tdiv nsec 1000000000
    let sec1 := int64 (sec + n)
    let nsec1 := int64 (nsec - n * 1000000000)
    if nsec1 < 0 then
      ⟨int64 (sec1 - 1), nanoField (int32 (nsec1 + 1000000000)), Location.Local⟩
    else
      ⟨sec1, nanoField (int32 nsec1), Location.Local⟩
  else
    ⟨sec, nanoField (int32 nsec), Location.Local⟩

/-! ## The wire timestamp and its conversions -/

/-- Modelled from the spec: the wire timestamp (`creationTime`, "seconds +
nanoseconds since epoch"), the message type `timestamp.Timestamp` of the
protobuf library, whose source is not part of this package: `Seconds` is an
`int64`, `Nanos` an `int32`. -/
structure tspb.Timestamp where
  Seconds : Int
  Nanos : Int
deriving DecidableEq, Repr

/-- Modelled from the spec: lower end of the representable range of the wire
timestamp, the Unix time of 0001-01-01T00:00:00Z (inclusive). The constant
belongs to the protobuf library. -/
def ptypes.minValidSeconds : Int := -62135596800

/-- Modelled from the spec: upper end of the representable range of the wire
timestamp, the Unix time of 10000-01-01T00:00:00Z (exclusive). The constant
belongs to the protobuf library. -/
def ptypes.maxValidSeconds : Int := 253402300800

/-- Modelled from the spec: the validation of a wire timestamp by the protobuf
library (`validateTimestamp`, not part of this package). A timestamp is
representable when it is present, its seconds lie in
`[minValidSeconds, maxValidSeconds)` and its nanos in `[0, 1e9)`; otherwise the
cause is reported. `protoText` is the text the library prints for a timestamp
(its `String()` method), left open. -/
def ptypes.validateTimestamp (protoText : tspb.Timestamp → String) :
    Option tspb.Timestamp → Option GoError
  | none => some (errorsNew "timestamp: nil Timestamp")
  | some ts =>
    if ts.Seconds < ptypes.minValidSeconds then
      some (Errorf "timestamp: %v before 0001-01-01"
        [Arg.stringer "*timestamp.Timestamp" (protoText ts)])
    else if ts.Seconds ≥ ptypes.maxValidSeconds then
      some (Errorf "timestamp: %v after 10000-01-01"
        [Arg.stringer "*timestamp.Timestamp" (protoText ts)])
    else if ts.Nanos < 0 ∨ ts.Nanos ≥ 1000000000 then
      some (Errorf "timestamp: %v: nanos not in range [0, 1e9)"
        [Arg.stringer "*timestamp.Timestamp" (protoText ts)])
    else none

/-- Modelled from the spec: `ptypes.TimestampProto` of the protobuf library
(not part of this package), "converts the timestamp to the wire timestamp
type; fails if the timestamp cannot be represented": the seconds and
nanoseconds of the time, validated. -/
def ptypes.TimestampProto (protoText : tspb.Timestamp → String) (t : Time) :
    Except GoError tspb.Timestamp :=
  let ts : tspb.Timestamp := { Seconds := t.Unix, Nanos := int32 t.Nanosecond }
  match ptypes.validateTimestamp protoText (some ts) with
  | some err => Except.error err
  | none => Except.ok ts

/-- Modelled from the spec: `ptypes.Timestamp` of the protobuf library (not
part of this package), the inverse conversion: the UTC time of the seconds and
nanos (of the epoch for an absent timestamp), together with the result of the
validation. -/
def ptypes.Timestamp (protoText : tspb.Timestamp → String) (ts : Option tspb.Timestamp) :
    Time × Option GoError :=
  let t : Time :=
    match ts with
    | none => (time.Unix 0 0).UTC
    | some v => (time.Unix v.Seconds (int64 v.Nanos)).UTC
  (t, ptypes.validateTimestamp protoText ts)

/-! ## The record and its converters -/

/-- Container info passed by the client to the server across the grpc
channel. -/
structure ContainerData where
  Id : String
  InitPid : Int
  Hostname : String
  Ctime : Time
  UidFirst : Int
  UidSize : Int
  GidFirst : Int
  GidSize : Int
deriving DecidableEq, Repr

/-- Modelled from the spec: the wire record `pb.ContainerData` of the generated
package `sysboxFsGrpc/protobuf` (not among the sources): `id`, `initPid`,
`creationTime` (a possibly absent wire timestamp), `uidFirst`, `uidSize`,
`gidFirst`, `gidSize`. -/
structure pb.ContainerData where
  Id : String
  InitPid : Int
  Ctime : Option tspb.Timestamp
  UidFirst : Int
  UidSize : Int
  GidFirst : Int
  GidSize : Int
deriving DecidableEq, Repr

/-- The Go function `containerDataToPbData`. -/
def containerDataToPbData (protoText : tspb.Timestamp → String) (data : ContainerData) :
    Except GoError pb.ContainerData :=
  match ptypes.TimestampProto protoText data.Ctime with
  | Except.error err => Except.error (Errorf "time conversion error: %v" [Arg.err err])
  | Except.ok pbTime =>
    Except.ok
      { Id := data.Id
        InitPid := data.InitPid
        Ctime := some pbTime
        UidFirst := data.UidFirst
        UidSize := data.UidSize
        GidFirst := data.GidFirst
        GidSize := data.GidSize }

/-- The Go function `pbDatatoContainerData`; the field `Hostname`, which the
composite literal does not mention, has the zero value. -/
def pbDatatoContainerData (protoText : tspb.Timestamp → String) (pbdata : pb.ContainerData) :
    Except GoError ContainerData :=
  match ptypes.Timestamp protoText pbdata.Ctime with
  | (_, some err) => Except.error (Errorf "time conversion error: %v" [Arg.err err])
  | (cTime, none) =>
    Except.ok
      { Id := pbdata.Id
        InitPid := pbdata.InitPid
        Hostname := ""
        Ctime := cTime
        UidFirst := pbdata.UidFirst
        UidSize := pbdata.UidSize
        GidFirst := pbdata.GidFirst
        GidSize := pbdata.GidSize }

/-! ## Processes: events, normal return, termination of the process -/

/-- The remote operations of the sysbox-fs state channel. -/
inductive RemoteOp where
  | ContainerRegistration
  | ContainerUnregistration
  | ContainerUpdate
deriving DecidableEq, Repr

/-- A context derived from `context.Background()` by `context.WithTimeout`: it
carries the timeout, a `time.Duration` in nanoseconds, counted from the moment
the context was made. -/
structure Context where
  timeout : Int
deriving DecidableEq, Repr

/-- What a dispatcher does that is visible outside of it, in the order in which
it does it. -/
inductive Event where
  | dialOk
  | dialFailed (err : GoError)
  | logFatal (line : String)
  | withTimeout (d : Int)
  | convert (data : ContainerData)
  | call (op : RemoteOp) (ctx : Context) (payload : pb.ContainerData)
  | cancel
  | close
deriving DecidableEq, Repr

/-- How a process ends: the function returns a value to its caller, or the
process is terminated by `os.Exit` before that; both with the events so far. -/
inductive Result (α : Type) where
  | returned (value : α) (trace : List Event)
  | exited (status : Int) (trace : List Event)
deriving Repr

/-- The events of a result. -/
def Result.trace {α : Type} : Result α → List Event
  | .returned _ tr => tr
  | .exited _ tr => tr

/-- A computation that appends events to the trace and returns or terminates
the process. -/
def Proc (α : Type) : Type := List Event → Result α

/-- Sequencing: nothing runs after the process has been terminated. -/
def Proc.bind {α β : Type} (m : Proc α) (f : α → Proc β) : Proc β :=
  fun tr =>
    match m tr with
    | .returned a tr1 => f a tr1
    | .exited status tr1 => .exited status tr1

/-- Returning a value without any event. -/
def Proc.pure {α : Type} (a : α) : Proc α :=
  fun tr => .returned a tr

instance : Monad Proc where
  pure := Proc.pure
  bind := Proc.bind

/-- Running a computation from a given trace. -/
def Proc.run {α : Type} (m : Proc α) (tr : List Event) : Result α := m tr

/-- Recording one event. -/
def emit (e : Event) : Proc Unit :=
  fun tr => .returned () (tr ++ [e])

/-- Go's `os.Exit`: the process ends here; deferred calls do not run. -/
def osExit (status : Int) : Proc Unit :=
  fun tr => .exited status tr

/-- Go's `log.Fatalf`: `Printf` followed by `os.Exit(1)`. -/
def logFatalf (format : String) (args : List Arg) : Proc Unit := do
  emit (Event.logFatal (Sprintf format args))
  osExit 1

/-- Go's `defer`: the deferred call runs when the rest of the function body
returns, after the result has been set, and not when the process exits. -/
def defer {α : Type} (deferred : Proc Unit) (body : Proc α) : Proc α := do
  let result ← body
  deferred
  pure result

/-! ## The environment of the client -/

/-- A handle on a grpc connection. -/
structure ClientConn where
  target : String
deriving DecidableEq, Repr

/-- What the client does not control: the text form of wire timestamps, the
constant `sysboxFsAddress` (declared elsewhere in the package), whether
`grpc.Dial` to a target fails, and what error, if any, the invocation of a
remote operation under a context comes back with (that of the remote, or of the
grpc library when the context expires first). -/
structure World where
  protoText : tspb.Timestamp → String
  sysboxFsAddress : String
  dial : String → Option GoError
  remote : RemoteOp → Context → pb.ContainerData → Option GoError

/-- The call `grpc.Dial(target, grpc.WithInsecure())`. -/
def grpcDial (w : World) (target : String) : Proc (Except GoError ClientConn) :=
  match w.dial target with
  | some err => do
    emit (Event.dialFailed err)
    pure (Except.error err)
  | none => do
    emit Event.dialOk
    pure (Except.ok { target := target })

/-- The method `(*grpc.ClientConn).Close`. -/
def ClientConn.Close (_conn : ClientConn) : Proc Unit :=
  emit Event.close

/-- The number of nanoseconds of `time.Second`. -/
def timeSecond : Int := 1000000000

/-- The call `context.WithTimeout(context.Background(), d)`: the clock of the
deadline starts here. The cancel function it also returns is `cancel`. -/
def contextWithTimeout (d : Int) : Proc Context := do
  emit (Event.withTimeout d)
  pure { timeout := d }

/-- The cancel function of a timeout context. -/
def cancel : Proc Unit :=
  emit Event.cancel

/-- Modelled from the spec: the client stub of the generated package
`sysboxFsGrpc/protobuf` (not among the sources), made by
`pb.NewSysboxStateChannelClient(conn)`. -/
structure pb.SysboxStateChannelClient where
  cc : ClientConn
deriving DecidableEq, Repr

/-- Modelled from the spec: the constructor of the client stub. -/
def pb.NewSysboxStateChannelClient (conn : ClientConn) : pb.SysboxStateChannelClient :=
  { cc := conn }

/-- Modelled from the spec: a method of the client stub is one unary
request/response exchange, "WireRecord in, empty ack out": it sends the record
to the named remote operation under the context and yields the error of the
exchange, if any. -/
def pb.SysboxStateChannelClient.invoke (_c : pb.SysboxStateChannelClient) (w : World)
    (op : RemoteOp) (ctx : Context) (payload : pb.ContainerData) : Proc (Option GoError) := do
  emit (Event.call op ctx payload)
  pure (w.remote op ctx payload)

/-- The call of `containerDataToPbData` from a dispatcher, made visible in the
trace. -/
def callContainerDataToPbData (w : World) (data : ContainerData) :
    Proc (Except GoError pb.ContainerData) := do
  emit (Event.convert data)
  pure (containerDataToPbData w.protoText data)

/-! ## The channel and the three dispatchers -/

/-- The Go function `connect`: establishes the grpc connection to the remote
end of sysbox-fs. The `return nil` that follows `log.Fatalf` is kept. -/
def connect (w : World) : Proc (Option ClientConn) := do
  match (← grpcDial w w.sysboxFsAddress) with
  | Except.error err =>
    logFatalf "Could not connect to sysbox-fs: %v" [Arg.err err]
    pure none
  | Except.ok conn => pure (some conn)

/-- The Go function `SendContainerRegistration`. -/
def SendContainerRegistration (w : World) (data : ContainerData) : Proc (Option GoError) := do
  match (← connect w) with
  | none => pure (some (Errorf "failed to connect with sysbox-fs" []))
  | some conn =>
    defer conn.Close do
      let cntrChanIntf := pb.NewSysboxStateChannelClient conn
      let ctx ← contextWithTimeout (3 * timeSecond)
      defer cancel do
        match (← callContainerDataToPbData w data) with
        | Except.error err =>
          pure (some (Errorf "convertion to protobuf data failed: %v" [Arg.err err]))
        | Except.ok pbData =>
          match (← cntrChanIntf.invoke w RemoteOp.ContainerRegistration ctx pbData) with
          | some err =>
            pure (some (Errorf "failed to register container with sysbox-fs: %v" [Arg.err err]))
          | none => pure none

/-- The Go function `SendContainerUnregistration`. -/
def SendContainerUnregistration (w : World) (data : ContainerData) : Proc (Option GoError) := do
  match (← connect w) with
  | none => pure (some (Errorf "failed to connect with sysbox-fs" []))
  | some conn =>
    defer conn.Close do
      let cntrChanIntf := pb.NewSysboxStateChannelClient conn
      let ctx ← contextWithTimeout (3 * timeSecond)
      defer cancel do
        match (← callContainerDataToPbData w data) with
        | Except.error err =>
          pure (some (Errorf "convertion to protobuf data failed: %v" [Arg.err err]))
        | Except.ok pbData =>
          match (← cntrChanIntf.invoke w RemoteOp.ContainerUnregistration ctx pbData) with
          | some err =>
            pure (some (Errorf "failed to unregister container with sysbox-fs: %v" [Arg.err err]))
          | none => pure none

/-- The Go function `SendContainerUpdate`. Its last `fmt.Errorf` has three
operands: the format `"failed to send container-update message to "`, then the
string `"sysbox-fs: %v"` and the error. -/
def SendContainerUpdate (w : World) (data : ContainerData) : Proc (Option GoError) := do
  match (← connect w) with
  | none => pure (some (Errorf "failed to connect with sysbox-fs" []))
  | some conn =>
    defer conn.Close do
      let cntrChanIntf := pb.NewSysboxStateChannelClient conn
      let ctx ← contextWithTimeout (3 * timeSecond)
      defer cancel do
        match (← callContainerDataToPbData w data) with
        | Except.error err =>
          pure (some (Errorf "convertion to protobuf data failed: %v" [Arg.err err]))
        | Except.ok pbData =>
          match (← cntrChanIntf.invoke w RemoteOp.ContainerUpdate ctx pbData) with
          | some err =>
            pure (some (Errorf "failed to send container-update message to "
              [Arg.str "sysbox-fs: %v", Arg.err err]))
          | none => pure none

/-! ## Vocabulary of the properties -/

/-- The time lies in the representable range of the wire timestamp: from
0001-01-01T00:00:00Z inclusive to 10000-01-01T00:00:00Z exclusive. -/
def Time.inWireRange (t : Time) : Prop :=
  ptypes.minValidSeconds ≤ t.Unix ∧ t.Unix < ptypes.maxValidSeconds

instance (t : Time) : Decidable t.inWireRange := by
  unfold Time.inWireRange; infer_instance

/-- The wire creation time is representable: it is present, its seconds are not
before 0001-01-01T00:00:00Z and before 10000-01-01T00:00:00Z, and its nanos
lie in `[0, 1e9)`. -/
def ptypes.representable : Option tspb.Timestamp → Prop
  | none => False
  | some ts =>
    ptypes.minValidSeconds ≤ ts.Seconds ∧ ts.Seconds < ptypes.maxValidSeconds ∧
      0 ≤ ts.Nanos ∧ ts.Nanos < 1000000000

instance (ts : Option tspb.Timestamp) : Decidable (ptypes.representable ts) := by
  cases ts <;> unfold ptypes.representable <;> infer_instance

/-- The three operations of the dispatcher. -/
inductive Operation where
  | registration
  | unregistration
  | update
deriving DecidableEq, Repr

/-- The dispatcher of an operation. -/
def Operation.send : Operation → World → ContainerData → Proc (Option GoError)
  | .registration => SendContainerRegistration
  | .unregistration => SendContainerUnregistration
  | .update => SendContainerUpdate

/-- The remote operation that matches an operation of the dispatcher. -/
def Operation.remoteOp : Operation → RemoteOp
  | .registration => RemoteOp.ContainerRegistration
  | .unregistration => RemoteOp.ContainerUnregistration
  | .update => RemoteOp.ContainerUpdate

/-- One invocation of the client: the operation, the record, and the
environment in which it runs. -/
structure Invocation where
  op : Operation
  world : World
  data : ContainerData

/-- A caller that makes the invocations one after the other and collects what
they return; it gets no further than an invocation that ends the process. -/
def invokeAll : List Invocation → Proc (List (Option GoError))
  | [] => pure []
  | i :: rest => do
    let err ← i.op.send i.world i.data
    let errs ← invokeAll rest
    pure (err :: errs)

/-- The number of channels opened in a trace. -/
def opens (tr : List Event) : Nat :=
  tr.countP (fun e => e = Event.dialOk)

/-- The number of channels closed in a trace. -/
def closes (tr : List Event) : Nat :=
  tr.countP (fun e => e = Event.close)

/-- The event is the making of a timeout context. -/
def Event.isWithTimeout : Event → Bool
  | .withTimeout _ => true
  | _ => false

/-- The event is the conversion of the record. -/
def Event.isConvert : Event → Bool
  | .convert _ => true
  | _ => false

/-- The clock of the deadline starts after the record has been converted: in
the trace a conversion comes first, and a timeout context is made later. -/
def deadlineStartsAfterConversion (tr : List Event) : Prop :=
  tr.findIdx Event.isConvert < tr.findIdx Event.isWithTimeout ∧
    tr.findIdx Event.isWithTimeout < tr.length

instance (tr : List Event) : Decidable (deadlineStartsAfterConversion tr) := by
  unfold deadlineStartsAfterConversion; infer_instance

/-! ## Sample inputs -/

/-- A text form for wire timestamps. -/
def compactText (ts : tspb.Timestamp) : String :=
  "seconds:" ++ toString ts.Seconds ++ " nanos:" ++ toString ts.Nanos

/-- The record of the scenario: created 2019-01-01T00:00:00.000000005Z. -/
def sampleRecord : ContainerData :=
  { Id := "c1"
    InitPid := 1234
    Hostname := "syscont"
    Ctime := { sec := 1546300800, nsec := 5, loc := Location.Local }
    UidFirst := 100000
    UidSize := 65536
    GidFirst := 100000
    GidSize := 65536 }

/-- The same record created at 10000-01-01T00:00:00Z, the first instant past the
representable range. -/
def lateRecord : ContainerData :=
  { sampleRecord with Ctime := { sec := 253402300800, nsec := 0, loc := Location.UTC } }

/-- An environment in which the dial succeeds and the remote acknowledges
everything. -/
def ackWorld : World :=
  { protoText := compactText
    sysboxFsAddress := "unix:///run/sysbox/sysfs.sock"
    dial := fun _ => none
    remote := fun _ _ _ => none }

/-- The error of a remote that rejects a duplicate id. -/
def duplicateId : GoError :=
  { typ := "*status.statusError", msg := "rpc error: code = AlreadyExists desc = duplicate id" }

/-- An environment in which the dial succeeds and the remote rejects
everything as a duplicate. -/
def rejectWorld : World :=
  { ackWorld with remote := fun _ _ _ => some duplicateId }

/-- The error of a dial that fails. -/
def dialError : GoError :=
  { typ := "*errors.errorString", msg := "grpc: the target address is not reachable" }

/-- An environment in which the dial fails. -/
def unreachableWorld : World :=
  { ackWorld with dial := fun _ => some dialError }

/-! ## Formatting lemmas -/

theorem Sprintf_time_conversion (e : GoError) :
    Sprintf "time conversion error: %v" [Arg.err e] = "time conversion error: " ++ e.msg := by
  apply String.ext
  simp [Sprintf, doPrintf, Arg.text]

theorem Sprintf_convertion (e : GoError) :
    Sprintf "convertion to protobuf data failed: %v" [Arg.err e]
      = "convertion to protobuf data failed: " ++ e.msg := by
  apply String.ext
  simp [Sprintf, doPrintf, Arg.text]

theorem Sprintf_register (e : GoError) :
    Sprintf "failed to register container with sysbox-fs: %v" [Arg.err e]
      = "failed to register container with sysbox-fs: " ++ e.msg := by
  apply String.ext
  simp [Sprintf, doPrintf, Arg.text]

theorem Sprintf_unregister (e : GoError) :
    Sprintf "failed to unregister container with sysbox-fs: %v" [Arg.err e]
      = "failed to unregister container with sysbox-fs: " ++ e.msg := by
  apply String.ext
  simp [Sprintf, doPrintf, Arg.text]

theorem Sprintf_update (e : GoError) :
    Sprintf "failed to send container-update message to " [Arg.str "sysbox-fs: %v", Arg.err e]
      = "failed to send container-update message to %!(EXTRA string=sysbox-fs: %v, "
          ++ e.typ ++ "=" ++ e.msg ++ ")" := by
  apply String.ext
  simp [Sprintf, doPrintf, Arg.text, extraArgs, Arg.typeName]

theorem Sprintf_fatal (e : GoError) :
    Sprintf "Could not connect to sysbox-fs: %v" [Arg.err e]
      = "Could not connect to sysbox-fs: " ++ e.msg := by
  apply String.ext
  simp [Sprintf, doPrintf, Arg.text]

/-! ## The converters -/

theorem int32_nanos (n : Fin 1000000000) : int32 (n.val : Int) = (n.val : Int) := by
  have := n.isLt
  unfold int32
  omega

theorem int64_nanos (x : Int) (h0 : 0 ≤ x) (h1 : x < 1000000000) : int64 x = x := by
  unfold int64
  omega

theorem nanoField_val (x : Int) (h0 : 0 ≤ x) (h1 : x < 1000000000) :
    (((nanoField (int32 x)).val : Nat) : Int) = x := by
  have h32 : int32 x = x := by
    unfold int32
    omega
  have hmod : x % 1000000000 = x := Int.emod_eq_of_lt h0 h1
  simp only [nanoField, h32, hmod]
  exact Int.toNat_of_nonneg h0

theorem validateTimestamp_eq_none_iff (protoText : tspb.Timestamp → String)
    (ts : Option tspb.Timestamp) :
    ptypes.validateTimestamp protoText ts = none ↔ ptypes.representable ts := by
  cases ts with
  | none => simp [ptypes.validateTimestamp, ptypes.representable]
  | some v =>
    simp only [ptypes.validateTimestamp, ptypes.representable]
    split_ifs with h1 h2 h3
    · simp; intro; omega
    · simp; intro; omega
    · simp; intro _ _ _; omega
    · simp; omega

theorem TimestampProto_in_range (protoText : tspb.Timestamp → String) (t : Time)
    (h : t.inWireRange) :
    ptypes.TimestampProto protoText t
      = Except.ok { Seconds := t.Unix, Nanos := t.Nanosecond } := by
  have hv : ptypes.validateTimestamp protoText
      (some { Seconds := t.Unix, Nanos := int32 t.Nanosecond }) = none := by
    rw [validateTimestamp_eq_none_iff]
    have := t.nsec.isLt
    simp only [ptypes.representable, Time.Nanosecond, int32_nanos]
    exact ⟨h.1, h.2, by omega, by omega⟩
  simp only [ptypes.TimestampProto, hv]
  simp [Time.Nanosecond, int32_nanos]

theorem TimestampProto_out_of_range (protoText : tspb.Timestamp → String) (t : Time)
    (h : ¬ t.inWireRange) :
    ∃ cause, ptypes.validateTimestamp protoText
        (some { Seconds := t.Unix, Nanos := int32 t.Nanosecond }) = some cause ∧
      ptypes.TimestampProto protoText t = Except.error cause := by
  cases hv : ptypes.validateTimestamp protoText
      (some { Seconds := t.Unix, Nanos := int32 t.Nanosecond }) with
  | none =>
    rw [validateTimestamp_eq_none_iff] at hv
    exact absurd ⟨hv.1, hv.2.1⟩ h
  | some cause =>
    exact ⟨cause, rfl, by simp only [ptypes.TimestampProto, hv]⟩

theorem time_Unix_normal (sec nsec : Int) (h0 : 0 ≤ nsec) (h1 : nsec < 1000000000) :
    time.Unix sec nsec
      = { sec := sec, nsec := nanoField (int32 nsec), loc := Location.Local } := by
  unfold time.Unix
  rw [if_neg]
  omega

theorem Timestamp_representable (protoText : tspb.Timestamp → String) (v : tspb.Timestamp)
    (h : ptypes.representable (some v)) :
    ∃ t, ptypes.Timestamp protoText (some v) = (t, none) ∧ t.Unix = v.Seconds ∧
      t.Nanosecond = v.Nanos ∧ t.loc = Location.UTC := by
  have hv := (validateTimestamp_eq_none_iff protoText (some v)).2 h
  obtain ⟨_, _, h0, h1⟩ := h
  refine ⟨(time.Unix v.Seconds (int64 v.Nanos)).UTC, by simp only [ptypes.Timestamp, hv],
    ?_, ?_, ?_⟩
  · rw [int64_nanos v.Nanos h0 h1, time_Unix_normal _ _ h0 h1]
    rfl
  · rw [int64_nanos v.Nanos h0 h1, time_Unix_normal _ _ h0 h1]
    exact nanoField_val v.Nanos h0 h1
  · rfl

theorem containerDataToPbData_in_range (protoText : tspb.Timestamp → String)
    (r : ContainerData) (h : r.Ctime.inWireRange) :
    containerDataToPbData protoText r = Except.ok
      { Id := r.Id
        InitPid := r.InitPid
        Ctime := some { Seconds := r.Ctime.Unix, Nanos := r.Ctime.Nanosecond }
        UidFirst := r.UidFirst
        UidSize := r.UidSize
        GidFirst := r.GidFirst
        GidSize := r.GidSize } := by
  simp only [containerDataToPbData, TimestampProto_in_range protoText r.Ctime h]

theorem representable_of_in_range (t : Time) (h : t.inWireRange) :
    ptypes.representable (some { Seconds := t.Unix, Nanos := t.Nanosecond }) := by
  have := t.nsec.isLt
  simp only [ptypes.representable, Time.Nanosecond]
  exact ⟨h.1, h.2, by omega, by omega⟩

theorem pbDatatoContainerData_representable (protoText : tspb.Timestamp → String)
    (w : pb.ContainerData) (v : tspb.Timestamp) (hw : w.Ctime = some v)
    (h : ptypes.representable (some v)) :
    ∃ t, t.Unix = v.Seconds ∧ t.Nanosecond = v.Nanos ∧ t.loc = Location.UTC ∧
      pbDatatoContainerData protoText w = Except.ok
        { Id := w.Id
          InitPid := w.InitPid
          Hostname := ""
          Ctime := t
          UidFirst := w.UidFirst
          UidSize := w.UidSize
          GidFirst := w.GidFirst
          GidSize := w.GidSize } := by
  obtain ⟨t, ht, h1, h2, h3⟩ := Timestamp_representable protoText v h
  exact ⟨t, h1, h2, h3, by simp only [pbDatatoContainerData, hw, ht]⟩

theorem pbDatatoContainerData_invalid (protoText : tspb.Timestamp → String)
    (w : pb.ContainerData) (cause : GoError)
    (h : ptypes.validateTimestamp protoText w.Ctime = some cause) :
    pbDatatoContainerData protoText w
      = Except.error (errorsNew ("time conversion error: " ++ cause.msg)) := by
  simp only [pbDatatoContainerData, ptypes.Timestamp, h, Errorf, Sprintf_time_conversion]

/-- C1: for every record whose creation time lies in the representable range
of the wire timestamp, `containerDataToPbData` succeeds with a wire record,
`pbDatatoContainerData` succeeds on that wire record, and the record that
comes back has the same `Id`, `InitPid`, `UidFirst`, `UidSize`, `GidFirst` and
`GidSize`, and a creation time that denotes the same instant to the
nanosecond. -/
theorem roundtrip_in_range (protoText : tspb.Timestamp → String) (r : ContainerData)
    (h : r.Ctime.inWireRange) :
    ∃ w r1, containerDataToPbData protoText r = Except.ok w ∧
      pbDatatoContainerData protoText w = Except.ok r1 ∧
      r1.Id = r.Id ∧ r1.InitPid = r.InitPid ∧ r1.UidFirst = r.UidFirst ∧
      r1.UidSize = r.UidSize ∧ r1.GidFirst = r.GidFirst ∧ r1.GidSize = r.GidSize ∧
      r1.Ctime.sameInstant r.Ctime := by
  obtain ⟨t, h1, h2, _, hback⟩ := pbDatatoContainerData_representable protoText
    { Id := r.Id
      InitPid := r.InitPid
      Ctime := some { Seconds := r.Ctime.Unix, Nanos := r.Ctime.Nanosecond }
      UidFirst := r.UidFirst
      UidSize := r.UidSize
      GidFirst := r.GidFirst
      GidSize := r.GidSize } _ rfl (representable_of_in_range r.Ctime h)
  exact ⟨_, _, containerDataToPbData_in_range protoText r h, hback, rfl, rfl, rfl, rfl, rfl, rfl,
    h1, h2⟩

theorem roundtrip_in_range_witness :
    sampleRecord.Ctime.inWireRange ∧
    ∃ w r1, containerDataToPbData compactText sampleRecord = Except.ok w ∧
      pbDatatoContainerData compactText w = Except.ok r1 ∧
      r1.Id = sampleRecord.Id ∧ r1.InitPid = sampleRecord.InitPid ∧
      r1.UidFirst = sampleRecord.UidFirst ∧ r1.UidSize = sampleRecord.UidSize ∧
      r1.GidFirst = sampleRecord.GidFirst ∧ r1.GidSize = sampleRecord.GidSize ∧
      r1.Ctime.sameInstant sampleRecord.Ctime :=
  ⟨by decide, roundtrip_in_range compactText sampleRecord (by decide)⟩

/-- C2: for every record whose creation time is outside the representable
range (before 0001-01-01T00:00:00Z, or at or after 10000-01-01T00:00:00Z),
whatever its other fields, `containerDataToPbData` returns no wire record and
an error whose message is "time conversion error: " followed by the cause the
validation of the timestamp reports. -/
theorem containerDataToPbData_out_of_range (protoText : tspb.Timestamp → String)
    (r : ContainerData) (h : ¬ r.Ctime.inWireRange) :
    ∃ cause, ptypes.validateTimestamp protoText
        (some { Seconds := r.Ctime.Unix, Nanos := int32 r.Ctime.Nanosecond }) = some cause ∧
      containerDataToPbData protoText r
        = Except.error (errorsNew ("time conversion error: " ++ cause.msg)) := by
  obtain ⟨cause, hcause, hproto⟩ := TimestampProto_out_of_range protoText r.Ctime h
  exact ⟨cause, hcause,
    by simp only [containerDataToPbData, hproto, Errorf, Sprintf_time_conversion]⟩

theorem containerDataToPbData_out_of_range_witness :
    ¬ lateRecord.Ctime.inWireRange ∧
    ∃ cause, ptypes.validateTimestamp compactText
        (some { Seconds := lateRecord.Ctime.Unix, Nanos := int32 lateRecord.Ctime.Nanosecond })
          = some cause ∧
      containerDataToPbData compactText lateRecord
        = Except.error (errorsNew ("time conversion error: " ++ cause.msg)) :=
  ⟨by decide, containerDataToPbData_out_of_range compactText lateRecord (by decide)⟩

/-- C9: for every wire record, `pbDatatoContainerData` returns an error and no
record exactly when the wire creation time is not representable (it is
absent, or its seconds are before 0001-01-01T00:00:00Z or at or after
10000-01-01T00:00:00Z, or its nanos are outside `[0, 1e9)`); it succeeds
exactly when the creation time is representable; and the message of the error
is "time conversion error: " followed by the cause. -/
theorem pbDatatoContainerData_fails_iff (protoText : tspb.Timestamp → String)
    (w : pb.ContainerData) :
    ((∃ e, pbDatatoContainerData protoText w = Except.error e)
        ↔ ¬ ptypes.representable w.Ctime) ∧
    ((∃ r, pbDatatoContainerData protoText w = Except.ok r)
        ↔ ptypes.representable w.Ctime) ∧
    (∀ e, pbDatatoContainerData protoText w = Except.error e →
      ∃ cause, ptypes.validateTimestamp protoText w.Ctime = some cause ∧
        e = errorsNew ("time conversion error: " ++ cause.msg)) := by
  cases hv : ptypes.validateTimestamp protoText w.Ctime with
  | none =>
    have hrep := (validateTimestamp_eq_none_iff protoText w.Ctime).1 hv
    cases hc : w.Ctime with
    | none => rw [hc] at hrep; exact absurd hrep (by simp [ptypes.representable])
    | some v =>
      rw [hc] at hrep
      obtain ⟨t, _, _, _, hok⟩ := pbDatatoContainerData_representable protoText w v hc hrep
      refine ⟨⟨fun ⟨e, he⟩ => ?_, fun hn => absurd hrep hn⟩, ⟨fun _ => hrep, fun _ => ⟨_, hok⟩⟩,
        fun e he => ?_⟩
      · rw [hok] at he; cases he
      · rw [hok] at he; cases he
  | some cause =>
    have hnot : ¬ ptypes.representable w.Ctime := by
      rw [← validateTimestamp_eq_none_iff protoText, hv]
      simp
    have herr := pbDatatoContainerData_invalid protoText w cause hv
    refine ⟨⟨fun _ => hnot, fun _ => ⟨_, herr⟩⟩, ⟨fun ⟨r, hr⟩ => ?_, fun hrep => absurd hrep hnot⟩,
      fun e he => ?_⟩
    · rw [herr] at hr; cases hr
    · rw [herr] at he
      cases he
      exact ⟨cause, rfl, rfl⟩

/-- C10: two records that differ only in `Hostname` are converted by
`containerDataToPbData` to the same result, the same wire record or the same
error; and when the creation time lies in the representable range, the record
that the round trip gives back has the empty `Hostname`. -/
theorem hostname_not_carried (protoText : tspb.Timestamp → String) (r1 r2 : ContainerData)
    (hdiff : r2 = { r1 with Hostname := r2.Hostname }) :
    containerDataToPbData protoText r1 = containerDataToPbData protoText r2 ∧
    (r1.Ctime.inWireRange →
      ∃ w back, containerDataToPbData protoText r1 = Except.ok w ∧
        pbDatatoContainerData protoText w = Except.ok back ∧ back.Hostname = "") := by
  constructor
  · rw [hdiff]
    rfl
  · intro h
    obtain ⟨t, _, _, _, hback⟩ := pbDatatoContainerData_representable protoText
      { Id := r1.Id
        InitPid := r1.InitPid
        Ctime := some { Seconds := r1.Ctime.Unix, Nanos := r1.Ctime.Nanosecond }
        UidFirst := r1.UidFirst
        UidSize := r1.UidSize
        GidFirst := r1.GidFirst
        GidSize := r1.GidSize } _ rfl (representable_of_in_range r1.Ctime h)
    exact ⟨_, _, containerDataToPbData_in_range protoText r1 h, hback, rfl⟩

theorem hostname_not_carried_witness :
    { sampleRecord with Hostname := "other" }
        = { sampleRecord with Hostname := ({ sampleRecord with Hostname := "other" }).Hostname } ∧
    sampleRecord.Ctime.inWireRange ∧
    containerDataToPbData compactText sampleRecord
        = containerDataToPbData compactText { sampleRecord with Hostname := "other" } ∧
    ∃ w back, containerDataToPbData compactText sampleRecord = Except.ok w ∧
      pbDatatoContainerData compactText w = Except.ok back ∧ back.Hostname = "" :=
  ⟨rfl, by decide,
    (hostname_not_carried compactText sampleRecord { sampleRecord with Hostname := "other" } rfl).1,
    (hostname_not_carried compactText sampleRecord { sampleRecord with Hostname := "other" } rfl).2
      (by decide)⟩

/-! ## The dispatchers, path by path -/

theorem send_dial_failed (op : Operation) (w : World) (r : ContainerData) (tr : List Event)
    (e : GoError) (hdial : w.dial w.sysboxFsAddress = some e) :
    (op.send w r).run tr = Result.exited 1
      (tr ++ [Event.dialFailed e, Event.logFatal ("Could not connect to sysbox-fs: " ++ e.msg)]) := by
  cases op <;>
    simp [Operation.send, SendContainerRegistration, SendContainerUnregistration,
      SendContainerUpdate, connect, grpcDial, hdial, Proc.run, bind, Proc.bind, pure, Proc.pure,
      emit, logFatalf, osExit, Sprintf_fatal]

theorem send_conversion_failed (op : Operation) (w : World) (r : ContainerData)
    (tr : List Event) (e : GoError) (hdial : w.dial w.sysboxFsAddress = none)
    (hconv : containerDataToPbData w.protoText r = Except.error e) :
    (op.send w r).run tr = Result.returned
      (some (errorsNew ("convertion to protobuf data failed: " ++ e.msg)))
      (tr ++ [Event.dialOk, Event.withTimeout 3000000000, Event.convert r, Event.cancel,
        Event.close]) := by
  cases op <;>
    simp [Operation.send, SendContainerRegistration, SendContainerUnregistration,
      SendContainerUpdate, connect, grpcDial, hdial, Proc.run, bind, Proc.bind, pure, Proc.pure,
      emit, defer, contextWithTimeout, cancel, ClientConn.Close, callContainerDataToPbData, hconv,
      timeSecond, Errorf, Sprintf_convertion]

theorem send_reaches_remote (op : Operation) (w : World) (r : ContainerData) (tr : List Event)
    (p : pb.ContainerData) (hdial : w.dial w.sysboxFsAddress = none)
    (hconv : containerDataToPbData w.protoText r = Except.ok p) :
    (op.send w r).run tr = Result.returned
      (match w.remote op.remoteOp { timeout := 3000000000 } p with
        | none => none
        | some e =>
          some (errorsNew
            (match op with
              | .registration => "failed to register container with sysbox-fs: " ++ e.msg
              | .unregistration => "failed to unregister container with sysbox-fs: " ++ e.msg
              | .update =>
                "failed to send container-update message to %!(EXTRA string=sysbox-fs: %v, "
                  ++ e.typ ++ "=" ++ e.msg ++ ")")))
      (tr ++ [Event.dialOk, Event.withTimeout 3000000000, Event.convert r,
        Event.call op.remoteOp { timeout := 3000000000 } p, Event.cancel, Event.close]) := by
  cases op
  · cases hr : w.remote RemoteOp.ContainerRegistration { timeout := 3000000000 } p <;>
      simp [Operation.send, Operation.remoteOp, SendContainerRegistration, connect, grpcDial,
        hdial, Proc.run, bind, Proc.bind, pure, Proc.pure, emit, defer, contextWithTimeout, cancel,
        ClientConn.Close, callContainerDataToPbData, hconv, pb.SysboxStateChannelClient.invoke,
        pb.NewSysboxStateChannelClient, timeSecond, hr, Errorf, Sprintf_register]
  · cases hr : w.remote RemoteOp.ContainerUnregistration { timeout := 3000000000 } p <;>
      simp [Operation.send, Operation.remoteOp, SendContainerUnregistration, connect, grpcDial,
        hdial, Proc.run, bind, Proc.bind, pure, Proc.pure, emit, defer, contextWithTimeout, cancel,
        ClientConn.Close, callContainerDataToPbData, hconv, pb.SysboxStateChannelClient.invoke,
        pb.NewSysboxStateChannelClient, timeSecond, hr, Errorf, Sprintf_unregister]
  · cases hr : w.remote RemoteOp.ContainerUpdate { timeout := 3000000000 } p <;>
      simp [Operation.send, Operation.remoteOp, SendContainerUpdate, connect, grpcDial,
        hdial, Proc.run, bind, Proc.bind, pure, Proc.pure, emit, defer, contextWithTimeout, cancel,
        ClientConn.Close, callContainerDataToPbData, hconv, pb.SysboxStateChannelClient.invoke,
        pb.NewSysboxStateChannelClient, timeSecond, hr, Errorf, Sprintf_update]

theorem send_events (op : Operation) (w : World) (r : ContainerData) (tr : List Event) :
    ∃ evs, ((op.send w r).run tr).trace = tr ++ evs ∧ opens evs ≤ 1 ∧ closes evs = opens evs := by
  cases hd : w.dial w.sysboxFsAddress with
  | some e =>
    rw [send_dial_failed op w r tr e hd]
    exact ⟨_, rfl, by simp [opens], by simp [opens, closes]⟩
  | none =>
    cases hc : containerDataToPbData w.protoText r with
    | error e =>
      rw [send_conversion_failed op w r tr e hd hc]
      exact ⟨_, rfl, by simp [opens], by simp [opens, closes]⟩
    | ok p =>
      rw [send_reaches_remote op w r tr p hd hc]
      exact ⟨_, rfl, by simp [opens], by simp [opens, closes]⟩

theorem invokeAll_cons_trace (i : Invocation) (rest : List Invocation) (tr : List Event) :
    ((invokeAll (i :: rest)).run tr).trace
      = match (i.op.send i.world i.data).run tr with
        | Result.returned _ tr1 => ((invokeAll rest).run tr1).trace
        | Result.exited _ tr1 => tr1 := by
  simp only [invokeAll, Proc.run, bind, Proc.bind, pure, Proc.pure]
  cases h1 : i.op.send i.world i.data tr with
  | returned err tr1 =>
    simp only []
    cases h2 : invokeAll rest tr1 <;> simp [Result.trace]
  | exited status tr1 => simp [Result.trace]

theorem invokeAll_balanced (calls : List Invocation) :
    ∀ tr, opens ((invokeAll calls).run tr).trace + closes tr
      = closes ((invokeAll calls).run tr).trace + opens tr := by
  induction calls with
  | nil =>
    intro tr
    simp [invokeAll, Proc.run, pure, Proc.pure, Result.trace, Nat.add_comm]
  | cons i rest ih =>
    intro tr
    obtain ⟨evs, htrace, _, hbal⟩ := send_events i.op i.world i.data tr
    rw [invokeAll_cons_trace]
    cases h1 : (i.op.send i.world i.data).run tr with
    | returned err tr1 =>
      rw [h1] at htrace
      simp only [Result.trace] at htrace
      have := ih tr1
      simp only [htrace, opens, closes, List.countP_append] at this hbal ⊢
      omega
    | exited status tr1 =>
      rw [h1] at htrace
      simp only [Result.trace] at htrace
      simp only [htrace, opens, closes, List.countP_append] at hbal ⊢
      omega

/-! ## The dispatchers: the properties -/

/-- The two sibling dispatchers on a remote failure: when the dial and the
conversion succeed and the remote call comes back with an error, `SendContainerRegistration` and
`SendContainerUnregistration` make exactly one call and return their fixed
description followed by ": " and the message of that error. -/
theorem remote_failure_described (w : World) (r : ContainerData) (tr : List Event)
    (p : pb.ContainerData) (e : GoError) (hdial : w.dial w.sysboxFsAddress = none)
    (hconv : containerDataToPbData w.protoText r = Except.ok p)
    (hremote : ∀ op, w.remote op { timeout := 3000000000 } p = some e) :
    (SendContainerRegistration w r).run tr = Result.returned
        (some (errorsNew ("failed to register container with sysbox-fs" ++ ": " ++ e.msg)))
        (tr ++ [Event.dialOk, Event.withTimeout 3000000000, Event.convert r,
          Event.call RemoteOp.ContainerRegistration { timeout := 3000000000 } p,
          Event.cancel, Event.close]) ∧
    (SendContainerUnregistration w r).run tr = Result.returned
        (some (errorsNew ("failed to unregister container with sysbox-fs" ++ ": " ++ e.msg)))
        (tr ++ [Event.dialOk, Event.withTimeout 3000000000, Event.convert r,
          Event.call RemoteOp.ContainerUnregistration { timeout := 3000000000 } p,
          Event.cancel, Event.close]) := by
  constructor
  · have h := send_reaches_remote Operation.registration w r tr p hdial hconv
    rw [hremote] at h
    exact h
  · have h := send_reaches_remote Operation.unregistration w r tr p hdial hconv
    rw [hremote] at h
    exact h

/-- C4, where the code departs from it: when the remote rejects the sample
record as a duplicate, `SendContainerUpdate` makes one call and returns an
error whose message is the format followed by the report of two surplus
operands, not "failed to send container-update message to sysbox-fs: "
followed by the message of the cause. -/
theorem update_remote_failure_message :
    (SendContainerUpdate rejectWorld sampleRecord).run [] = Result.returned
      (some (errorsNew ("failed to send container-update message to " ++
        "%!(EXTRA string=sysbox-fs: %v, *status.statusError=" ++
        "rpc error: code = AlreadyExists desc = duplicate id)")))
      [Event.dialOk, Event.withTimeout 3000000000, Event.convert sampleRecord,
        Event.call RemoteOp.ContainerUpdate { timeout := 3000000000 }
          { Id := "c1"
            InitPid := 1234
            Ctime := some { Seconds := 1546300800, Nanos := 5 }
            UidFirst := 100000
            UidSize := 65536
            GidFirst := 100000
            GidSize := 65536 },
        Event.cancel, Event.close] ∧
    ("failed to send container-update message to " ++
        "%!(EXTRA string=sysbox-fs: %v, *status.statusError=" ++
        "rpc error: code = AlreadyExists desc = duplicate id)" : String)
      ≠ "failed to send container-update message to sysbox-fs" ++ ": " ++ duplicateId.msg :=
  ⟨rfl, by decide⟩

/-- C5, where the code departs from it: when the dial fails, none of the three
operations returns to its caller; each logs "Could not connect to sysbox-fs: "
followed by the cause and the process exits with status 1, without any
conversion or remote call. -/
theorem dial_failure_exits :
    (SendContainerRegistration unreachableWorld sampleRecord).run [] = Result.exited 1
      [Event.dialFailed dialError,
        Event.logFatal "Could not connect to sysbox-fs: grpc: the target address is not reachable"] ∧
    (SendContainerUnregistration unreachableWorld sampleRecord).run [] = Result.exited 1
      [Event.dialFailed dialError,
        Event.logFatal "Could not connect to sysbox-fs: grpc: the target address is not reachable"] ∧
    (SendContainerUpdate unreachableWorld sampleRecord).run [] = Result.exited 1
      [Event.dialFailed dialError,
        Event.logFatal "Could not connect to sysbox-fs: grpc: the target address is not reachable"] :=
  ⟨rfl, rfl, rfl⟩

/-- C6: when the dial succeeds and `containerDataToPbData` fails on the record,
each of the three operations returns an error whose message is "convertion to
protobuf data failed: " followed by the message of the conversion error; no
remote call is made, and the channel is closed before the operation
returns. -/
theorem conversion_failure_closes_channel (w : World) (r : ContainerData) (tr : List Event)
    (e : GoError) (hdial : w.dial w.sysboxFsAddress = none)
    (hconv : containerDataToPbData w.protoText r = Except.error e) :
    (SendContainerRegistration w r).run tr = Result.returned
        (some (errorsNew ("convertion to protobuf data failed: " ++ e.msg)))
        (tr ++ [Event.dialOk, Event.withTimeout 3000000000, Event.convert r, Event.cancel,
          Event.close]) ∧
    (SendContainerUnregistration w r).run tr = Result.returned
        (some (errorsNew ("convertion to protobuf data failed: " ++ e.msg)))
        (tr ++ [Event.dialOk, Event.withTimeout 3000000000, Event.convert r, Event.cancel,
          Event.close]) ∧
    (SendContainerUpdate w r).run tr = Result.returned
        (some (errorsNew ("convertion to protobuf data failed: " ++ e.msg)))
        (tr ++ [Event.dialOk, Event.withTimeout 3000000000, Event.convert r, Event.cancel,
          Event.close]) :=
  ⟨send_conversion_failed Operation.registration w r tr e hdial hconv,
    send_conversion_failed Operation.unregistration w r tr e hdial hconv,
    send_conversion_failed Operation.update w r tr e hdial hconv⟩

theorem conversion_failure_closes_channel_witness :
    ackWorld.dial ackWorld.sysboxFsAddress = none ∧
    containerDataToPbData ackWorld.protoText lateRecord = Except.error (errorsNew
      "time conversion error: timestamp: seconds:253402300800 nanos:0 after 10000-01-01") ∧
    (SendContainerRegistration ackWorld lateRecord).run [] = Result.returned
        (some (errorsNew ("convertion to protobuf data failed: " ++ (errorsNew
          "time conversion error: timestamp: seconds:253402300800 nanos:0 after 10000-01-01").msg)))
        ([] ++ [Event.dialOk, Event.withTimeout 3000000000, Event.convert lateRecord, Event.cancel,
          Event.close]) :=
  ⟨rfl, rfl, (conversion_failure_closes_channel ackWorld lateRecord [] _ rfl rfl).1⟩

/-- C7: every invocation of one of the three operations, in any environment
and from any trace, appends events among which at most one channel is opened
and as many channels are closed as are opened; and after any sequence of
invocations the number of channels opened equals the number of channels
closed. -/
theorem no_channel_leak (i : Invocation) (tr : List Event) (calls : List Invocation) :
    (∃ evs, ((i.op.send i.world i.data).run tr).trace = tr ++ evs ∧ opens evs ≤ 1 ∧
      closes evs = opens evs) ∧
    opens ((invokeAll calls).run []).trace = closes ((invokeAll calls).run []).trace := by
  refine ⟨send_events i.op i.world i.data tr, ?_⟩
  have h := invokeAll_balanced calls []
  simpa [opens, closes] using h

/-- C8 as stated fails: in the run of `SendContainerRegistration` on the sample
record the timeout context is not made after the conversion of the record. -/
theorem deadline_not_after_conversion :
    ¬ deadlineStartsAfterConversion
      ((SendContainerRegistration ackWorld sampleRecord).run []).trace := by
  decide

/-- C8, amended: when the dial succeeds, each of the three operations, for
every record, makes its timeout context of exactly 3 seconds right after the
channel is opened and before the record is converted, makes no other, and
every remote call it issues runs under that context; and when the remote call
comes back with an error, as it does when the deadline has elapsed, the
operation fails with an error that names the operation and carries the cause
(for registration and unregistration the fixed description followed by ": "
and the message of the cause; for the update a message that begins with
"failed to send container-update message to " and contains the message of the
cause), after one call, and the channel is closed before it returns. -/
theorem deadline_three_seconds (op : Operation) (w : World) (r : ContainerData)
    (tr : List Event) (hdial : w.dial w.sysboxFsAddress = none) :
    (∃ rest, ((op.send w r).run tr).trace
        = tr ++ Event.dialOk :: Event.withTimeout (3 * 1000000000) :: Event.convert r :: rest ∧
      (∀ d, Event.withTimeout d ∉ rest) ∧
      (∀ o ctx p, Event.call o ctx p ∈ rest → ctx.timeout = 3 * 1000000000)) ∧
    (∀ p e, containerDataToPbData w.protoText r = Except.ok p →
      w.remote op.remoteOp { timeout := 3 * 1000000000 } p = some e →
      ∃ text, (op.send w r).run tr = Result.returned (some (errorsNew text))
        (tr ++ [Event.dialOk, Event.withTimeout (3 * 1000000000), Event.convert r,
          Event.call op.remoteOp { timeout := 3 * 1000000000 } p, Event.cancel, Event.close]) ∧
        match op with
        | .registration =>
          text = "failed to register container with sysbox-fs" ++ ": " ++ e.msg
        | .unregistration =>
          text = "failed to unregister container with sysbox-fs" ++ ": " ++ e.msg
        | .update =>
          ∃ mid tail,
            text = "failed to send container-update message to " ++ mid ++ e.msg ++ tail) := by
  constructor
  · cases hc : containerDataToPbData w.protoText r with
    | error e =>
      rw [send_conversion_failed op w r tr e hdial hc]
      exact ⟨[Event.cancel, Event.close], by simp [Result.trace], by simp, by simp⟩
    | ok p =>
      rw [send_reaches_remote op w r tr p hdial hc]
      refine ⟨[Event.call op.remoteOp { timeout := 3000000000 } p, Event.cancel, Event.close],
        by simp [Result.trace], by simp, ?_⟩
      intro o ctx q hmem
      simp at hmem
      rw [hmem.2.1]
      norm_num
  · intro p e hc hr
    have h := send_reaches_remote op w r tr p hdial hc
    norm_num at hr
    rw [hr] at h
    refine ⟨_, by simpa using h, ?_⟩
    cases op
    · rfl
    · rfl
    · refine ⟨"%!(EXTRA string=sysbox-fs: %v, " ++ e.typ ++ "=", ")", ?_⟩
      apply String.ext
      simp [String.append_assoc]

theorem deadline_three_seconds_witness :
    rejectWorld.dial rejectWorld.sysboxFsAddress = none ∧
    (∃ rest, ((Operation.registration.send rejectWorld sampleRecord).run []).trace
        = [] ++ Event.dialOk :: Event.withTimeout (3 * 1000000000) :: Event.convert sampleRecord
            :: rest ∧
      (∀ d, Event.withTimeout d ∉ rest) ∧
      (∀ o ctx p, Event.call o ctx p ∈ rest → ctx.timeout = 3 * 1000000000)) ∧
    containerDataToPbData rejectWorld.protoText sampleRecord = Except.ok
      { Id := "c1"
        InitPid := 1234
        Ctime := some { Seconds := 1546300800, Nanos := 5 }
        UidFirst := 100000
        UidSize := 65536
        GidFirst := 100000
        GidSize := 65536 } ∧
    rejectWorld.remote Operation.registration.remoteOp { timeout := 3 * 1000000000 }
      { Id := "c1"
        InitPid := 1234
        Ctime := some { Seconds := 1546300800, Nanos := 5 }
        UidFirst := 100000
        UidSize := 65536
        GidFirst := 100000
        GidSize := 65536 } = some duplicateId ∧
    (∃ text, (Operation.registration.send rejectWorld sampleRecord).run []
      = Result.returned (some (errorsNew text))
        ([] ++ [Event.dialOk, Event.withTimeout (3 * 1000000000), Event.convert sampleRecord,
          Event.call Operation.registration.remoteOp { timeout := 3 * 1000000000 }
            { Id := "c1"
              InitPid := 1234
              Ctime := some { Seconds := 1546300800, Nanos := 5 }
              UidFirst := 100000
              UidSize := 65536
              GidFirst := 100000
              GidSize := 65536 },
          Event.cancel, Event.close]) ∧
      text = "failed to register container with sysbox-fs" ++ ": " ++ duplicateId.msg) ∧
    (∃ text, (Operation.update.send rejectWorld sampleRecord).run []
      = Result.returned (some (errorsNew text))
        ([] ++ [Event.dialOk, Event.withTimeout (3 * 1000000000), Event.convert sampleRecord,
          Event.call Operation.update.remoteOp { timeout := 3 * 1000000000 }
            { Id := "c1"
              InitPid := 1234
              Ctime := some { Seconds := 1546300800, Nanos := 5 }
              UidFirst := 100000
              UidSize := 65536
              GidFirst := 100000
              GidSize := 65536 },
          Event.cancel, Event.close]) ∧
      ∃ mid tail,
        text = "failed to send container-update message to " ++ mid ++ duplicateId.msg ++ tail) :=
  ⟨rfl, (deadline_three_seconds Operation.registration rejectWorld sampleRecord [] rfl).1,
    rfl, rfl,
    (deadline_three_seconds Operation.registration rejectWorld sampleRecord [] rfl).2
      _ duplicateId rfl rfl,
    (deadline_three_seconds Operation.update rejectWorld sampleRecord [] rfl).2
      _ duplicateId rfl rfl⟩

end SysboxFsGrpc
